import Mathlib

/-!
Verification of the Moodbeats backend (src/backend/server.js and
src/backend/models/playlist.model.js) against its natural-language
specification.  The JavaScript code is shallowly embedded: numbers that
the code compares (Spotify audio features and mood bounds) become exact
rationals, Mongo object identifiers and Spotify identifiers become
strings, dates become natural-number timestamps, and fallible external
calls become Except or Option values supplied as parameters.
-/

/-- Interval of one audio-feature dimension of a mood profile
(server.js lines 42-47). -/
structure MoodRange where
  lo : ℚ
  hi : ℚ
  deriving DecidableEq, Repr

/-- A mood profile: closed ranges for valence, energy and danceability
(server.js lines 42-47). -/
structure MoodProfile where
  valence : MoodRange
  energy : MoodRange
  danceability : MoodRange
  deriving DecidableEq, Repr

/-- The moodProfiles table of server.js lines 42-47.  Lookup of a key in
the JavaScript object literal becomes a partial map from strings. -/
def moodProfiles : String → Option MoodProfile
  | "happy" => some ⟨⟨6/10, 1⟩, ⟨5/10, 1⟩, ⟨5/10, 1⟩⟩
  | "neutral" => some ⟨⟨3/10, 6/10⟩, ⟨3/10, 7/10⟩, ⟨3/10, 7/10⟩⟩
  | "angry" => some ⟨⟨0, 4/10⟩, ⟨7/10, 1⟩, ⟨3/10, 8/10⟩⟩
  | "sad" => some ⟨⟨0, 3/10⟩, ⟨0, 5/10⟩, ⟨0, 5/10⟩⟩
  | _ => none

/-- A catalog track as seen by the mood filter; the filter only threads
tracks through, so only the identifier is relevant. -/
structure Track where
  id : String
  deriving DecidableEq, Repr

/-- Audio-feature triple of a track (valence, energy, danceability). -/
structure AudioFeatures where
  valence : ℚ
  energy : ℚ
  danceability : ℚ
  deriving DecidableEq, Repr

/-- The six inclusive comparisons of server.js lines 104-111. -/
def featuresMatchMood (p : MoodProfile) (f : AudioFeatures) : Bool :=
  decide (p.valence.lo ≤ f.valence) && decide (f.valence ≤ p.valence.hi) &&
  decide (p.energy.lo ≤ f.energy) && decide (f.energy ≤ p.energy.hi) &&
  decide (p.danceability.lo ≤ f.danceability) && decide (f.danceability ≤ p.danceability.hi)

/-- The body of the filter callback at server.js lines 101-112: the
feature object at the same index as the track is looked up; a missing
entry (null element, or index past the end of the response array) is
falsy and excludes the track. -/
def trackKeptAt (p : MoodProfile) (features : List (Option AudioFeatures)) (i : Nat) : Bool :=
  match features.get? i with
  | some (some f) => featuresMatchMood p f
  | _ => false

/-- filterTracksByMood of server.js lines 91-117.  The audio-features
response is passed as a parameter: none models the whole batch request
throwing (the catch clause returns the tracks unfiltered), some gives
the index-aligned array of per-track feature objects, each of which may
itself be null. -/
def filterTracksByMood (tracks : List Track)
    (featResp : Option (List (Option AudioFeatures))) (mood : String) : List Track :=
  match moodProfiles mood with
  | none => tracks
  | some p =>
      match featResp with
      | none => tracks
      | some features =>
          (tracks.enum.filter (fun it => trackKeptAt p features it.1)).map Prod.snd

theorem trackKeptAt_eq_true_iff (p : MoodProfile) (features : List (Option AudioFeatures))
    (i : Nat) :
    trackKeptAt p features i = true ↔
      ∃ f, features.get? i = some (some f) ∧
        p.valence.lo ≤ f.valence ∧ f.valence ≤ p.valence.hi ∧
        p.energy.lo ≤ f.energy ∧ f.energy ≤ p.energy.hi ∧
        p.danceability.lo ≤ f.danceability ∧ f.danceability ≤ p.danceability.hi := by
  unfold trackKeptAt
  rcases h : features.get? i with _ | f
  · simp [h]
  · rcases f with _ | f
    · simp
    · simp [featuresMatchMood, and_assoc]

/-- C1: for every track list and every mood that is one of the four
configured labels, filterTracksByMood retains a track exactly when its
index-aligned audio-feature triple is available and each of the three
features lies inside the closed interval configured for that mood and
that dimension, bounds included; a track whose features are missing is
excluded. -/
theorem filterByMood_retained_iff (mood : String) (p : MoodProfile)
    (hm : moodProfiles mood = some p)
    (tracks : List Track) (features : List (Option AudioFeatures)) (t : Track) :
    t ∈ filterTracksByMood tracks (some features) mood ↔
      ∃ i, tracks.get? i = some t ∧
        ∃ f, features.get? i = some (some f) ∧
          p.valence.lo ≤ f.valence ∧ f.valence ≤ p.valence.hi ∧
          p.energy.lo ≤ f.energy ∧ f.energy ≤ p.energy.hi ∧
          p.danceability.lo ≤ f.danceability ∧ f.danceability ≤ p.danceability.hi := by
  unfold filterTracksByMood
  rw [hm]
  simp only [List.mem_map, List.mem_filter, Prod.exists]
  constructor
  · rintro ⟨i, t', ⟨hmem, hkept⟩, rfl⟩
    refine ⟨i, ?_, (trackKeptAt_eq_true_iff p features i).mp hkept⟩
    simpa using List.mk_mem_enum_iff_getElem?.mp hmem
  · rintro ⟨i, hi, hf⟩
    refine ⟨i, t, ⟨?_, (trackKeptAt_eq_true_iff p features i).mpr hf⟩, rfl⟩
    exact List.mk_mem_enum_iff_getElem?.mpr (by simpa using hi)

/-- Witness inputs for the C1 theorem. -/
def sampleTrack : Track := ⟨"t1"⟩

/-- Witness feature triple inside the happy profile. -/
def sampleFeatures : AudioFeatures := ⟨7/10, 6/10, 6/10⟩

theorem filterByMood_retained_iff_witness :
    moodProfiles "happy" = some ⟨⟨6/10, 1⟩, ⟨5/10, 1⟩, ⟨5/10, 1⟩⟩ ∧
      (sampleTrack ∈ filterTracksByMood [sampleTrack] (some [some sampleFeatures]) "happy" ↔
        ∃ i, [sampleTrack].get? i = some sampleTrack ∧
          ∃ f, [some sampleFeatures].get? i = some (some f) ∧
            (6/10 : ℚ) ≤ f.valence ∧ f.valence ≤ 1 ∧
            (5/10 : ℚ) ≤ f.energy ∧ f.energy ≤ 1 ∧
            (5/10 : ℚ) ≤ f.danceability ∧ f.danceability ≤ 1) :=
  ⟨rfl, filterByMood_retained_iff "happy" ⟨⟨6/10, 1⟩, ⟨5/10, 1⟩, ⟨5/10, 1⟩⟩ rfl
    [sampleTrack] [some sampleFeatures] sampleTrack⟩

/-- Image subdocument of the playlist schema
(playlist.model.js lines 9-13). -/
structure PlaylistImage where
  url : String
  height : Int
  width : Int
  deriving DecidableEq, Repr

/-- A persisted playlist document (playlist.model.js lines 3-16).
Object identifiers are strings; dates are natural-number timestamps. -/
structure PlaylistState where
  name : String
  description : String
  spotifyId : Option String
  user : String
  songs : List String
  image : Option PlaylistImage
  createdAt : Nat
  updatedAt : Nat
  deriving DecidableEq, Repr

/-- The pre-save hook of playlist.model.js lines 19-22: every save
refreshes the update timestamp to the current time. -/
def saveWithTimestamp (now : Nat) (p : PlaylistState) : PlaylistState :=
  { p with updatedAt := now }

/-- The addSong method of playlist.model.js lines 25-35: if the song
reference is already included nothing happens and the document is not
saved; otherwise the reference is pushed and the document is saved,
which refreshes the update timestamp through the pre-save hook. -/
def addSong (now : Nat) (p : PlaylistState) (songId : String) : PlaylistState :=
  if p.songs.contains songId then p
  else saveWithTimestamp now { p with songs := p.songs ++ [songId] }

/-- The removeSong method of playlist.model.js lines 38-46: the songs
array is replaced by the sublist of references different from the given
identifier, and the document is saved unconditionally, refreshing the
update timestamp through the pre-save hook. -/
def removeSong (now : Nat) (p : PlaylistState) (songId : String) : PlaylistState :=
  saveWithTimestamp now { p with songs := p.songs.filter (fun id => id != songId) }

/-- An image entry of a Spotify playlist payload. -/
structure SpotifyImage where
  url : String
  height : Int
  width : Int
  deriving DecidableEq, Repr

/-- The catalog payload consumed by syncWithSpotify.  A missing field is
none; the code also treats a present empty string as falsy, which the
embedding reproduces. -/
structure SpotifyPlaylistData where
  name : Option String
  description : Option String
  id : Option String
  images : List SpotifyImage
  deriving DecidableEq, Repr

/-- JavaScript semantics of writing field or-else old value, where an
absent field and an empty string are both falsy. -/
def orElseStr (field : Option String) (old : String) : String :=
  match field with
  | some s => if s = "" then old else s
  | none => old

/-- The syncWithSpotify method of playlist.model.js lines 49-66: each of
name, description and external identifier is overwritten only when the
payload value is truthy; the image is overwritten only when the payload
has a nonempty images array; the final save refreshes the update
timestamp through the pre-save hook. -/
def syncWithSpotify (now : Nat) (d : SpotifyPlaylistData) (p : PlaylistState) : PlaylistState :=
  saveWithTimestamp now
    { p with
      name := orElseStr d.name p.name,
      description := orElseStr d.description p.description,
      spotifyId :=
        match d.id with
        | some s => if s = "" then p.spotifyId else some s
        | none => p.spotifyId,
      image :=
        match d.images with
        | [] => p.image
        | img :: _ => some ⟨img.url, img.height, img.width⟩ }

/-- A concrete playlist used by counterexamples and witnesses. -/
def samplePlaylist : PlaylistState :=
  { name := "Mix", description := "", spotifyId := none, user := "u1",
    songs := ["a"], image := none, createdAt := 1, updatedAt := 3 }

/-- C4 counterexample: removing an absent song does not leave the
playlist unchanged, because removeSong saves unconditionally and the
pre-save hook refreshes the update timestamp. -/
theorem removeSong_absent_changes_playlist :
    "b" ∉ samplePlaylist.songs ∧ removeSong 5 samplePlaylist "b" ≠ samplePlaylist := by
  decide

/-- C4 amended: removeSong removes exactly the references matching the
given identifier and refreshes the update timestamp; removing an absent
song succeeds and leaves the song list unchanged, the playlist differing
at most in the refreshed update timestamp. -/
theorem removeSong_spec (now : Nat) (p : PlaylistState) (songId : String) :
    (∀ x, x ∈ (removeSong now p songId).songs ↔ x ∈ p.songs ∧ x ≠ songId) ∧
    (removeSong now p songId).updatedAt = now ∧
    (songId ∉ p.songs → removeSong now p songId = saveWithTimestamp now p) := by
  refine ⟨?_, rfl, ?_⟩
  · intro x
    simp [removeSong, saveWithTimestamp, List.mem_filter]
  · intro habs
    simp only [removeSong, saveWithTimestamp]
    congr 1
    apply List.filter_eq_self.mpr
    intro a ha
    simp only [bne_iff_ne, ne_eq]
    exact fun h => habs (h ▸ ha)

theorem removeSong_spec_witness :
    "b" ∉ samplePlaylist.songs ∧
      removeSong 5 samplePlaylist "b" = saveWithTimestamp 5 samplePlaylist :=
  ⟨by decide, (removeSong_spec 5 samplePlaylist "b").2.2 (by decide)⟩

/-- C6: addSong is a success no-op when the reference is already
present; otherwise it appends the reference and refreshes the update
timestamp; and on any playlist without duplicate references of the song,
adding the same song twice leaves exactly one reference to it. -/
theorem addSong_spec (p : PlaylistState) (s : String) (n1 n2 : Nat) :
    (s ∈ p.songs → addSong n1 p s = p) ∧
    (s ∉ p.songs → addSong n1 p s = saveWithTimestamp n1 { p with songs := p.songs ++ [s] }) ∧
    (p.songs.count s ≤ 1 → ((addSong n2 (addSong n1 p s) s).songs.count s = 1)) := by
  have hyes : ∀ q : PlaylistState, s ∈ q.songs → addSong n2 q s = q := by
    intro q hmem
    unfold addSong
    rw [if_pos (List.elem_eq_true_of_mem hmem)]
  have hyes1 : s ∈ p.songs → addSong n1 p s = p := by
    intro hmem
    unfold addSong
    rw [if_pos (List.elem_eq_true_of_mem hmem)]
  have hno1 : s ∉ p.songs →
      addSong n1 p s = saveWithTimestamp n1 { p with songs := p.songs ++ [s] } := by
    intro habs
    unfold addSong
    rw [if_neg (by simp [habs])]
  refine ⟨hyes1, hno1, ?_⟩
  intro hcount
  by_cases hmem : s ∈ p.songs
  · rw [hyes1 hmem, hyes p hmem]
    exact Nat.le_antisymm hcount (List.count_pos_iff.mpr hmem)
  · have h0 : p.songs.count s = 0 := List.count_eq_zero.mpr hmem
    have hmem2 : s ∈ (addSong n1 p s).songs := by
      rw [hno1 hmem]; simp [saveWithTimestamp]
    rw [hyes _ hmem2, hno1 hmem]
    simp [saveWithTimestamp, List.count_append, h0]

theorem addSong_spec_witness :
    (samplePlaylist.songs.count "z" ≤ 1) ∧
      ((addSong 5 (addSong 4 samplePlaylist "z") "z").songs.count "z" = 1) :=
  ⟨by decide, (addSong_spec samplePlaylist "z" 4 5).2.2 (by decide)⟩

/-- A catalog payload with every field absent. -/
def emptySpotifyData : SpotifyPlaylistData :=
  { name := none, description := none, id := none, images := [] }

/-- C9 counterexample: syncing with an entirely absent payload still
modifies the playlist, because the unconditional save refreshes the
update timestamp, a field outside name, description, external id and
image. -/
theorem sync_modifies_updatedAt :
    (syncWithSpotify 5 emptySpotifyData samplePlaylist).updatedAt = 5 ∧
      samplePlaylist.updatedAt = 3 ∧
      syncWithSpotify 5 emptySpotifyData samplePlaylist ≠ samplePlaylist := by
  decide

/-- C9 amended: syncWithSpotify overwrites name, description, external
id and image only from present (truthy) payload fields, leaves each of
them untouched when the corresponding field is absent, and never
modifies any other field except the update timestamp, which the save
refreshes. -/
theorem syncWithSpotify_spec (now : Nat) (d : SpotifyPlaylistData) (p : PlaylistState) :
    (d.name = none → (syncWithSpotify now d p).name = p.name) ∧
    ((syncWithSpotify now d p).name ≠ p.name →
      ∃ s, d.name = some s ∧ s ≠ "" ∧ (syncWithSpotify now d p).name = s) ∧
    (d.description = none → (syncWithSpotify now d p).description = p.description) ∧
    ((syncWithSpotify now d p).description ≠ p.description →
      ∃ s, d.description = some s ∧ s ≠ "" ∧ (syncWithSpotify now d p).description = s) ∧
    (d.id = none → (syncWithSpotify now d p).spotifyId = p.spotifyId) ∧
    ((syncWithSpotify now d p).spotifyId ≠ p.spotifyId →
      ∃ s, d.id = some s ∧ s ≠ "" ∧ (syncWithSpotify now d p).spotifyId = some s) ∧
    (d.images = [] → (syncWithSpotify now d p).image = p.image) ∧
    (syncWithSpotify now d p).songs = p.songs ∧
    (syncWithSpotify now d p).user = p.user ∧
    (syncWithSpotify now d p).createdAt = p.createdAt ∧
    (syncWithSpotify now d p).updatedAt = now := by
  refine ⟨?_, ?_, ?_, ?_, ?_, ?_, ?_, rfl, rfl, rfl, rfl⟩
  · intro h; simp [syncWithSpotify, saveWithTimestamp, orElseStr, h]
  · intro hne
    rcases hn : d.name with _ | s
    · exact absurd (by simp [syncWithSpotify, saveWithTimestamp, orElseStr, hn]) hne
    · refine ⟨s, rfl, ?_, ?_⟩
      · intro hempty
        exact hne (by simp [syncWithSpotify, saveWithTimestamp, orElseStr, hn, hempty])
      · by_cases hempty : s = ""
        · exact absurd (by simp [syncWithSpotify, saveWithTimestamp, orElseStr, hn, hempty]) hne
        · simp [syncWithSpotify, saveWithTimestamp, orElseStr, hn, hempty]
  · intro h; simp [syncWithSpotify, saveWithTimestamp, orElseStr, h]
  · intro hne
    rcases hn : d.description with _ | s
    · exact absurd (by simp [syncWithSpotify, saveWithTimestamp, orElseStr, hn]) hne
    · refine ⟨s, rfl, ?_, ?_⟩
      · intro hempty
        exact hne (by simp [syncWithSpotify, saveWithTimestamp, orElseStr, hn, hempty])
      · by_cases hempty : s = ""
        · exact absurd (by simp [syncWithSpotify, saveWithTimestamp, orElseStr, hn, hempty]) hne
        · simp [syncWithSpotify, saveWithTimestamp, orElseStr, hn, hempty]
  · intro h; simp [syncWithSpotify, saveWithTimestamp, h]
  · intro hne
    rcases hn : d.id with _ | s
    · exact absurd (by simp [syncWithSpotify, saveWithTimestamp, hn]) hne
    · refine ⟨s, rfl, ?_, ?_⟩
      · intro hempty
        exact hne (by simp [syncWithSpotify, saveWithTimestamp, hn, hempty])
      · by_cases hempty : s = ""
        · exact absurd (by simp [syncWithSpotify, saveWithTimestamp, hn, hempty]) hne
        · simp [syncWithSpotify, saveWithTimestamp, hn, hempty]
  · intro h; simp [syncWithSpotify, saveWithTimestamp, h]

theorem syncWithSpotify_spec_witness :
    emptySpotifyData.name = none ∧
      (syncWithSpotify 5 emptySpotifyData samplePlaylist).name = samplePlaylist.name :=
  ⟨rfl, (syncWithSpotify_spec 5 emptySpotifyData samplePlaylist).1 rfl⟩

/-- A fixed artist source of the /api/mixed and /api/mixed1 endpoints:
artist identifier, display name, per-source take count and provenance
language tag (server.js lines 199-205 and 358-377). -/
structure ArtistSpec where
  id : String
  name : String
  count : Nat
  language : String
  deriving DecidableEq, Repr

/-- A raw catalog track as consumed by the artist aggregation. -/
structure RawTrack where
  id : String
  name : String
  artistNames : List String
  albumImageUrl : Option String
  externalUrl : Option String
  previewUrl : Option String
  deriving DecidableEq, Repr

/-- A raw track spread together with the provenance fields added at
server.js lines 218-222 and 390-394. -/
structure TaggedTrack where
  track : RawTrack
  primary_artist : String
  language : String
  deriving DecidableEq, Repr

/-- The artist list of the /api/mixed endpoint (server.js 199-205). -/
def mixedArtists : List ArtistSpec :=
  [⟨"6eUKZXaKkcviH0Ku9w2n3V", "Ed Sheeran", 4, "english"⟩,
   ⟨"4YRxDV8wJFPHPTeXepOstw", "Arijit Singh", 7, "hindi"⟩,
   ⟨"5f4QpKfy7ptCHwTqspnSJI", "Neha Kakkar", 2, "hindi"⟩,
   ⟨"2FKWNmZWDBZR4dE5KX4plR", "Diljit Dosanjh", 7, "punjabi"⟩,
   ⟨"6cEuCEZuGdZg4X9UrhWZ1i", "Yung Kai Blue", 3, "punjabi"⟩]

/-- The artist list of the /api/mixed1 endpoint (server.js 358-377). -/
def mixed1Artists : List ArtistSpec :=
  [⟨"6eUKZXaKkcviH0Ku9w2n3V", "Ed Sheeran", 10, "english"⟩,
   ⟨"6cEuCEZuGdZg4X9UrhWZ1i", "Yung Kai Blue", 5, "english"⟩,
   ⟨"06HL4z0CvFAxyc27GXpf02", "Taylor Swift", 10, "english"⟩,
   ⟨"6M2wZ9GZgrQXHCFfjv46DL", "Dua Lipa", 8, "english"⟩,
   ⟨"1Xyo4u8uXC1ZmMpatF05PJ", "The Weeknd", 8, "english"⟩,
   ⟨"7iK8PXO48WeuP03g8YR51W", "Billie Eilish", 7, "english"⟩,
   ⟨"4V8Sr092nmH6rQvmV0d3zF", "Post Malone", 7, "english"⟩,
   ⟨"0C8ZW7ezQVs4urJTLi2c5B", "Coldplay", 6, "english"⟩,
   ⟨"6KImCVD70vtIoJWnq6nGn3", "Harry Styles", 6, "english"⟩,
   ⟨"4YRxDV8wJFPHPTeXepOstw", "Arijit Singh", 10, "hindi"⟩,
   ⟨"0oOet2f43PA68X5RxKobEy", "Shreya Ghoshal", 8, "hindi"⟩,
   ⟨"5f4QpKfy7ptCHwTqspnSJI", "Neha Kakkar", 7, "hindi"⟩,
   ⟨"2FKWNmZWDBZR4dE5KX4plR", "Diljit Dosanjh", 8, "punjabi"⟩,
   ⟨"4PULA4EFzYTrxYvOVlwpiQ", "Sidhu Moosewala", 7, "punjabi"⟩,
   ⟨"5XacWe2kM6K9G2QJ1q8u0E", "Satinder Sartaaj", 7, "punjabi"⟩,
   ⟨"6gBhqjKxay1g6pDm1c4G1e", "Karan Aujla", 7, "punjabi"⟩,
   ⟨"0GF4shudTAFv8ak9eWdd4Y", "Kishore Kumar", 6, "hindi"⟩,
   ⟨"1mYsTxnqsietFxj1OgoGbG", "A.R. Rahman", 6, "hindi"⟩]

/-- One iteration of the per-artist loop of the /api/mixed and
/api/mixed1 endpoints (server.js 209-227 and 381-399): a failed fetch
is caught and contributes nothing; a successful fetch with a nonempty
track array contributes its first count tracks, each tagged with the
artist name and language. -/
def artistContribution (a : ArtistSpec) (r : Except String (List RawTrack)) : List TaggedTrack :=
  match r with
  | .error _ => []
  | .ok ts =>
      if 0 < ts.length then (ts.take a.count).map (fun t => ⟨t, a.name, a.language⟩)
      else []

/-- The allTracks accumulation loop shared by /api/mixed and
/api/mixed1, with the per-artist fetch outcomes supplied positionally:
the loop walks the artist list and appends each contribution. -/
def mixedAllTracks (artists : List ArtistSpec)
    (fetches : List (Except String (List RawTrack))) : List TaggedTrack :=
  (artists.zip fetches).foldl (fun acc pr => acc ++ artistContribution pr.1 pr.2) []

/-- A track item of a Spotify playlist response as read by the
/api/mixed-hits endpoint (server.js 165-183). -/
structure HitsTrack where
  id : String
  name : String
  artistNames : List String
  albumImageUrl : Option String
  albumAvailableMarkets : Option (List String)
  externalUrl : String
  previewUrl : Option String
  deriving DecidableEq, Repr

/-- An item of a playlist tracks response; the track reference may be
null and is dropped by the filter at server.js line 169. -/
structure PlaylistItem where
  track : Option HitsTrack
  deriving DecidableEq, Repr

/-- The response shape produced by /api/mixed-hits. -/
structure HitsSong where
  id : String
  name : String
  artists : String
  image : String
  external_url : String
  preview_url : Option String
  language : String
  deriving DecidableEq, Repr

/-- The character-class test of the regular expression over the
Devanagari range at server.js line 181. -/
def containsDevanagari (s : String) : Bool :=
  s.any (fun c => decide (0x905 ≤ c.toNat) && decide (c.toNat ≤ 0x939))

/-- The character-class test of the regular expression over the
Gurmukhi range at server.js line 182. -/
def containsGurmukhi (s : String) : Bool :=
  s.any (fun c => decide (0xA01 ≤ c.toNat) && decide (c.toNat ≤ 0xA74))

/-- The per-track projection of /api/mixed-hits (server.js 173-183).
The language field is not the provenance tag of the contributing
playlist: it is derived from the track itself, from the album market
list and the script of the title. -/
def toHitsSong (t : HitsTrack) : HitsSong :=
  { id := t.id,
    name := t.name,
    artists := String.intercalate ", " t.artistNames,
    image := t.albumImageUrl.getD "",
    external_url := t.externalUrl,
    preview_url := t.previewUrl,
    language :=
      if (t.albumAvailableMarkets.getD []).contains "IN" then
        if containsDevanagari t.name then "hindi"
        else if containsGurmukhi t.name then "punjabi"
        else "english"
      else "english" }

/-- The /api/mixed-hits handler (server.js 144-193).  The three source
fetches run under one Promise.all, so a single rejection rejects the
whole combination and lands in the catch clause; the embedding models
this with the Except monad.  The nondeterministic comparator shuffle is
passed as a function parameter. -/
def mixedHitsHandler (shuffle : List HitsTrack → List HitsTrack)
    (englishRes punjabiRes hindiRes : Except String (List PlaylistItem)) :
    Except String (List HitsSong) := do
  let eItems ← englishRes
  let pItems ← punjabiRes
  let hItems ← hindiRes
  let allTracks := ((eItems ++ pItems ++ hItems).filterMap (fun item => item.track))
  pure (((shuffle allTracks).map toHitsSong).take 50)

theorem foldl_append_contribution (l : List (ArtistSpec × Except String (List RawTrack)))
    (init : List TaggedTrack) :
    l.foldl (fun acc pr => acc ++ artistContribution pr.1 pr.2) init =
      init ++ l.flatMap (fun pr => artistContribution pr.1 pr.2) := by
  induction l generalizing init with
  | nil => simp
  | cons hd tl ih => simp [List.foldl_cons, ih]

/-- A concrete punjabi-playlist track whose title is in Latin script and
whose album market list does not include IN. -/
def latinPunjabiTrack : HitsTrack :=
  { id := "pj1", name := "Latin Song", artistNames := ["Some Artist"],
    albumImageUrl := some "img.jpg", albumAvailableMarkets := some [],
    externalUrl := "https://x", previewUrl := none }

/-- C2 counterexample: on /api/mixed-hits a failing source aborts the
whole batch.  With the english source failing and the punjabi source
resolving to one track, the endpoint reports the failure and returns no
tracks at all, instead of merging the remaining sources. -/
theorem mixedHits_abort_counterexample :
    mixedHitsHandler id (.error "upstream failure")
      (.ok [⟨some latinPunjabiTrack⟩]) (.ok []) = .error "upstream failure" := rfl

/-- C2 amended: on /api/mixed and /api/mixed1 the per-artist loop is
partial-failure tolerant: the merged list decomposes per source and a
failed source contributes the empty list, leaving the other
contributions intact; on /api/mixed-hits, by contrast, any failing
source rejects the whole Promise.all batch and the handler reports the
failure. -/
theorem mixed_aggregation_partial_failure
    (artists : List ArtistSpec) (fetches : List (Except String (List RawTrack)))
    (a : ArtistSpec) (e : String)
    (shuffle : List HitsTrack → List HitsTrack) (msg : String)
    (punjabiRes hindiRes : Except String (List PlaylistItem)) :
    mixedAllTracks artists fetches =
      (artists.zip fetches).flatMap (fun pr => artistContribution pr.1 pr.2) ∧
    artistContribution a (.error e) = [] ∧
    mixedHitsHandler shuffle (.error msg) punjabiRes hindiRes = .error msg := by
  refine ⟨?_, rfl, rfl⟩
  simpa using foldl_append_contribution (artists.zip fetches) []

/-- The song shape that /api/mixed-hits produces for the Latin-script
punjabi-playlist track. -/
def latinPunjabiSong : HitsSong :=
  { id := "pj1", name := "Latin Song", artists := "Some Artist",
    image := "img.jpg", external_url := "https://x", preview_url := none,
    language := "english" }

/-- C3 counterexample: a track contributed by the punjabi source of
/api/mixed-hits is returned carrying the language tag english, not the
provenance tag of its own source, because the tag is derived from the
album market list and the title script rather than from the source. -/
theorem mixedHits_tag_counterexample :
    mixedHitsHandler id (.ok []) (.ok [⟨some latinPunjabiTrack⟩]) (.ok []) =
        .ok [latinPunjabiSong] ∧
      latinPunjabiSong.language ≠ "punjabi" := by
  exact ⟨rfl, by decide⟩

/-- C3 amended: on /api/mixed and /api/mixed1 every contributed track is
tagged, before merging, with the name and language of the artist source
it came from; on /api/mixed-hits the language tag is instead derived
from the track itself and may differ from the provenance of its source
playlist. -/
theorem mixed_tracks_tagged (artists : List ArtistSpec)
    (fetches : List (Except String (List RawTrack))) :
    ∀ t ∈ mixedAllTracks artists fetches,
      ∃ pr ∈ artists.zip fetches,
        t.primary_artist = pr.1.name ∧ t.language = pr.1.language := by
  intro t ht
  rw [mixedAllTracks, foldl_append_contribution, List.nil_append,
    List.mem_flatMap] at ht
  rcases ht with ⟨pr, hpr, hmem⟩
  refine ⟨pr, hpr, ?_⟩
  rcases pr with ⟨a, r⟩
  rcases r with _ | ts
  · simp [artistContribution] at hmem
  · simp only [artistContribution] at hmem
    by_cases hlen : 0 < ts.length
    · rw [if_pos hlen] at hmem
      rcases List.mem_map.mp hmem with ⟨raw, _, rfl⟩
      exact ⟨rfl, rfl⟩
    · rw [if_neg hlen] at hmem
      exact absurd hmem (List.not_mem_nil t)

/-- A concrete raw track used in the aggregation witness. -/
def sampleRawTrack : RawTrack :=
  { id := "tr1", name := "Shape", artistNames := ["Ed Sheeran"],
    albumImageUrl := some "cover.jpg", externalUrl := some "https://sp",
    previewUrl := none }

/-- Fetch outcomes for the five /api/mixed artists: the first resolves
to one track, the rest fail. -/
def sampleMixedFetches : List (Except String (List RawTrack)) :=
  [.ok [sampleRawTrack], .error "e1", .error "e2", .error "e3", .error "e4"]

theorem mixed_tracks_tagged_witness :
    (⟨sampleRawTrack, "Ed Sheeran", "english"⟩ : TaggedTrack) ∈
        mixedAllTracks mixedArtists sampleMixedFetches ∧
      ∃ pr ∈ mixedArtists.zip sampleMixedFetches,
        (⟨sampleRawTrack, "Ed Sheeran", "english"⟩ : TaggedTrack).primary_artist = pr.1.name ∧
        (⟨sampleRawTrack, "Ed Sheeran", "english"⟩ : TaggedTrack).language = pr.1.language :=
  ⟨by decide,
   mixed_tracks_tagged mixedArtists sampleMixedFetches
     ⟨sampleRawTrack, "Ed Sheeran", "english"⟩ (by decide)⟩

/-- Outcome of a playlist route, abstracting the JSON bodies and HTTP
statuses of server.js: badRequest is 400 for a missing field, notFound
404, forbidden 403, conflict the 400 duplicate-name rejection of the
create route, serverError the catch-all 500, and ok a success carrying
the playlist the response is built from. -/
inductive ApiResponse where
  | badRequest
  | notFound
  | forbidden
  | conflict
  | serverError
  | ok (p : PlaylistState)
  deriving DecidableEq, Repr

/-- A user document together with its populated playlist references
(user.model.js), as read by the playlist routes. -/
structure UserState where
  id : String
  playlists : List PlaylistState
  deriving DecidableEq, Repr

/-- JavaScript toLowerCase on the ASCII range, written structurally so
that the kernel can evaluate it on concrete names. -/
def toLowerStr (s : String) : String := ⟨s.data.map Char.toLower⟩

/-- The POST /api/playlists handler (server.js 450-494): rejects a
missing or empty name, rejects a name that matches an existing playlist
of the owner case-insensitively, and otherwise persists a new empty
playlist and appends its reference to the owner playlist collection. -/
def createPlaylist (u : UserState) (name : String) (description : Option String)
    (now : Nat) : ApiResponse × UserState :=
  if name = "" then (.badRequest, u)
  else if u.playlists.any (fun p => toLowerStr p.name == toLowerStr name) then (.conflict, u)
  else
    (.ok { name := name, description := description.getD "", spotifyId := none,
           user := u.id, songs := [], image := none, createdAt := now, updatedAt := now },
     { u with playlists := u.playlists ++
        [{ name := name, description := description.getD "", spotifyId := none,
           user := u.id, songs := [], image := none, createdAt := now, updatedAt := now }] })

/-- The deduplication filter of the GET /api/playlists handler
(server.js 507-516): walk the stored references in order, keeping a
playlist only when its lowercased name has not been seen before. -/
def dedupePlaylists (seen : List String) : List PlaylistState → List PlaylistState
  | [] => []
  | p :: rest =>
      if seen.contains (toLowerStr p.name) then dedupePlaylists seen rest
      else p :: dedupePlaylists (toLowerStr p.name :: seen) rest

/-- The GET /api/playlists handler restricted to the selection of
playlists returned (server.js 496-542). -/
def listPlaylists (u : UserState) : List PlaylistState :=
  dedupePlaylists [] u.playlists

/-- Modelled from the words of the specification for comparison with
listPlaylists: deduplication by case-insensitive name where the first
occurrence wins and the output order is the stored reference order. -/
def dedupeSpec : List PlaylistState → List PlaylistState
  | [] => []
  | p :: rest =>
      p :: dedupeSpec (rest.filter (fun q => toLowerStr q.name != toLowerStr p.name))
  termination_by l => l.length
  decreasing_by
    simp only [List.length_cons]
    exact Nat.lt_succ_of_le (List.length_filter_le _ _)

/-- The POST /api/playlists/:playlistId/songs handler (server.js
544-616).  The playlist lookup result is passed in; the catalog track
fetch and the Song upsert are external collaborators, merged into one
Except value that yields the object identifier of the upserted song;
any upstream failure lands in the catch clause as a 500. -/
def addSongHandler (stored : Option PlaylistState) (userId : String)
    (spotifyId : Option String) (upsertedSongId : Except String String)
    (now : Nat) : Option PlaylistState × ApiResponse :=
  match spotifyId with
  | none => (stored, .badRequest)
  | some sid =>
      if sid = "" then (stored, .badRequest)
      else
        match stored with
        | none => (none, .notFound)
        | some p =>
            if p.user != userId then (some p, .forbidden)
            else
              match upsertedSongId with
              | .error _ => (some p, .serverError)
              | .ok songId => (some (addSong now p songId), .ok (addSong now p songId))

/-- The DELETE /api/playlists/:playlistId/songs/:songId handler
(server.js 619-657).  After the ownership check, removeSong saves the
mutated playlist; the response body is then built by mapping over the
remaining songs, and that callback reads the undefined identifier
savsong (line 641), so it throws a ReferenceError on its first
invocation and the catch clause answers 500 - after the removal has
already been persisted.  The map callback never runs on an empty songs
array, so only an empty remainder reaches the success response. -/
def deleteSongHandler (stored : Option PlaylistState) (userId : String)
    (songId : String) (now : Nat) : Option PlaylistState × ApiResponse :=
  match stored with
  | none => (none, .notFound)
  | some p =>
      if p.user != userId then (some p, .forbidden)
      else
        if (removeSong now p songId).songs.isEmpty then
          (some (removeSong now p songId), .ok (removeSong now p songId))
        else (some (removeSong now p songId), .serverError)

/-- The GET /api/playlists/:playlistId/play handler (server.js
660-694): lookup, ownership check, and a read-only response. -/
def playHandler (stored : Option PlaylistState) (userId : String) :
    Option PlaylistState × ApiResponse :=
  match stored with
  | none => (none, .notFound)
  | some p =>
      if p.user != userId then (some p, .forbidden)
      else (some p, .ok p)

theorem dedupePlaylists_eq_spec (ps : List PlaylistState) :
    ∀ seen, dedupePlaylists seen ps =
      dedupeSpec (ps.filter (fun p => !seen.contains (toLowerStr p.name))) := by
  induction ps with
  | nil => intro seen; simp [dedupePlaylists, dedupeSpec]
  | cons p rest ih =>
    intro seen
    simp only [dedupePlaylists, List.filter_cons]
    by_cases hseen : seen.contains (toLowerStr p.name) = true
    · rw [if_pos hseen, hseen]
      simp only [Bool.not_true, Bool.false_eq_true, if_false]
      exact ih seen
    · rw [if_neg hseen, Bool.not_eq_true] at *
      rw [hseen]
      simp only [Bool.not_false, if_true, dedupeSpec]
      rw [ih (toLowerStr p.name :: seen), List.filter_filter]
      refine congrArg (fun l => p :: dedupeSpec l) (List.filter_congr ?_)
      intro a _
      simp only [List.contains_cons, Bool.not_or, bne, beq_eq_decide]

/-- A user owning playlists named Chill, chill and Work, in stored
order. -/
def chillUser : UserState :=
  { id := "u9",
    playlists :=
      [{ name := "Chill", description := "", spotifyId := none, user := "u9",
         songs := [], image := none, createdAt := 1, updatedAt := 1 },
       { name := "chill", description := "", spotifyId := none, user := "u9",
         songs := [], image := none, createdAt := 1, updatedAt := 1 },
       { name := "Work", description := "", spotifyId := none, user := "u9",
         songs := [], image := none, createdAt := 1, updatedAt := 1 }] }

/-- C8: the list route returns the owner playlists deduplicated by
case-insensitive name, first occurrence winning, in stored reference
order; and on stored playlists Chill, chill, Work it returns exactly
the two playlists named Chill and Work. -/
theorem listPlaylists_dedup_spec :
    (∀ u : UserState, listPlaylists u = dedupeSpec u.playlists) ∧
      (listPlaylists chillUser).map (fun p => p.name) = ["Chill", "Work"] := by
  constructor
  · intro u
    rw [listPlaylists, dedupePlaylists_eq_spec]
    congr 1
    apply List.filter_eq_self.mpr
    intro a _
    simp
  · decide

/-- C7: creating a playlist fails with the duplicate-name conflict when
the owner already has a playlist whose name matches case-insensitively,
leaving the owner state untouched; otherwise it persists a new empty
playlist owned by the caller and appends its reference to the owner
playlist collection. -/
theorem createPlaylist_spec (u : UserState) (name : String) (desc : Option String)
    (now : Nat) (hname : name ≠ "") :
    ((∃ p ∈ u.playlists, toLowerStr p.name = toLowerStr name) →
        createPlaylist u name desc now = (.conflict, u)) ∧
    ((∀ p ∈ u.playlists, toLowerStr p.name ≠ toLowerStr name) →
        ∃ newP, createPlaylist u name desc now =
            (.ok newP, { u with playlists := u.playlists ++ [newP] }) ∧
          newP.name = name ∧ newP.user = u.id ∧ newP.songs = []) := by
  constructor
  · rintro ⟨p, hp, hlow⟩
    unfold createPlaylist
    rw [if_neg hname, if_pos]
    exact List.any_eq_true.mpr ⟨p, hp, by simp [hlow]⟩
  · intro hall
    have hna : ¬ (u.playlists.any (fun p => toLowerStr p.name == toLowerStr name) = true) := by
      intro h
      rcases List.any_eq_true.mp h with ⟨p, hp, heq⟩
      exact hall p hp (by simpa using heq)
    refine ⟨{ name := name, description := desc.getD "", spotifyId := none, user := u.id,
              songs := [], image := none, createdAt := now, updatedAt := now },
            ?_, rfl, rfl, rfl⟩
    unfold createPlaylist
    rw [if_neg hname, if_neg hna]

/-- A user who already owns a playlist named Road Trip. -/
def roadTripUser : UserState :=
  { id := "u7",
    playlists :=
      [{ name := "Road Trip", description := "", spotifyId := none, user := "u7",
         songs := [], image := none, createdAt := 1, updatedAt := 1 }] }

theorem createPlaylist_spec_witness :
    createPlaylist roadTripUser "road trip" none 7 = (.conflict, roadTripUser) :=
  (createPlaylist_spec roadTripUser "road trip" none 7 (by decide)).1 (by decide)

/-- C10: each of the add-song route, the remove-song route and the play
route checks ownership right after resolving the playlist: a request by
a caller who is not the owner of the stored playlist answers forbidden
and the stored playlist is unchanged. -/
theorem ownership_forbidden (p : PlaylistState) (userId : String) (h : userId ≠ p.user)
    (sid : String) (hs : sid ≠ "") (upsert : Except String String)
    (songId : String) (now : Nat) :
    addSongHandler (some p) userId (some sid) upsert now = (some p, .forbidden) ∧
    deleteSongHandler (some p) userId songId now = (some p, .forbidden) ∧
    playHandler (some p) userId = (some p, .forbidden) := by
  have hb : (p.user != userId) = true := by
    simp only [bne_iff_ne, ne_eq]
    exact fun hh => h hh.symm
  refine ⟨?_, ?_, ?_⟩
  · simp [addSongHandler, hs, hb]
  · simp [deleteSongHandler, hb]
  · simp [playHandler, hb]

theorem ownership_forbidden_witness :
    addSongHandler (some samplePlaylist) "u2" (some "sp1") (.ok "a") 5 =
        (some samplePlaylist, .forbidden) ∧
      deleteSongHandler (some samplePlaylist) "u2" "a" 5 =
        (some samplePlaylist, .forbidden) ∧
      playHandler (some samplePlaylist) "u2" = (some samplePlaylist, .forbidden) :=
  ownership_forbidden samplePlaylist "u2" (by decide) "sp1" (by decide) (.ok "a") "a" 5

/-- A playlist of owner u1 holding two song references. -/
def twoSongPlaylist : PlaylistState :=
  { name := "Mix", description := "", spotifyId := none, user := "u1",
    songs := ["a", "b"], image := none, createdAt := 1, updatedAt := 3 }

/-- C5: an owner-authorized removal that leaves the playlist nonempty
persists the mutation and still answers the 500 error, because the
response builder reads the undefined identifier savsong: the persisted
state after the request differs from the stored state although the
response is an error. -/
theorem deleteSong_persists_then_errors :
    deleteSongHandler (some twoSongPlaylist) "u1" "a" 5 =
        (some { twoSongPlaylist with songs := ["b"], updatedAt := 5 }, .serverError) ∧
      ({ twoSongPlaylist with songs := ["b"], updatedAt := 5 } : PlaylistState) ≠
        twoSongPlaylist := by
  decide
